import Mathlib

/-!
Shallow embedding of the Waykanan social-services portal backend
(application lifecycle engine, requirement validator, document lifecycle
guard) and proofs about its handlers.

Sources embedded:
* `src/server/src/db/schema.ts` — the data model (status enum, tables).
* `src/server/src/handlers/submit_application.ts` — `submitApplication`.
* `src/server/src/handlers/update_application.ts` — `updateApplication`.
* `src/server/src/handlers/upload_document.ts` — `uploadDocument`.
* `src/unnamed/part_008` — `deleteDocument`.

Modelling conventions: timestamps are `Nat` and every `new Date()` inside a
single handler call is the parameter `now`; the SQL store is a `DBState` of
row lists; a thrown `Error(msg)` is `Except.error msg`; a `return null` is
`Except.ok none`; the external filesystem used by `deleteDocument` is the
list of existing file paths.
-/

/-- The `application_status` pg enum from `schema.ts`. -/
inductive ApplicationStatus where
  | DRAFT
  | SUBMITTED
  | UNDER_REVIEW
  | REQUIRES_DOCUMENTS
  | APPROVED
  | REJECTED
deriving DecidableEq, Repr

/-- A row of `applicationsTable`.  `application_data` is an opaque JSON
payload (a `json` column the lifecycle code never inspects), modelled as a
`String`. -/
structure Application where
  id : Nat
  service_id : Nat
  applicant_id : Nat
  status : ApplicationStatus
  application_data : String
  notes : Option String
  staff_notes : Option String
  submitted_at : Option Nat
  reviewed_at : Option Nat
  reviewed_by : Option Int
  created_at : Nat
  updated_at : Nat
deriving DecidableEq, Repr

/-- A row of `servicesTable`.  `required_documents` is a `json` column typed
`string[]` in the source, so document-type tags are `String`s here. -/
structure Service where
  id : Nat
  name : String
  description : Option String
  required_documents : List String
  is_active : Bool
  created_at : Nat
deriving DecidableEq, Repr

/-- A row of `applicationDocumentsTable`. -/
structure ApplicationDocument where
  id : Nat
  application_id : Nat
  document_type : String
  file_name : String
  file_path : String
  file_size : Nat
  mime_type : String
  uploaded_at : Nat
deriving DecidableEq, Repr

/-- The relational store the handlers run against, plus the external
filesystem (`files` is the set of paths that currently exist, used by
`deleteDocument`'s `unlink`). -/
structure DBState where
  applications : List Application
  services : List Service
  documents : List ApplicationDocument
  files : List String
deriving DecidableEq, Repr

/-- `SELECT ... FROM applications WHERE id = ?` (first matching row). -/
def DBState.findApp (s : DBState) (id : Nat) : Option Application :=
  s.applications.find? (fun a => a.id == id)

/-- `SELECT ... FROM services WHERE id = ?` (first matching row). -/
def DBState.findService (s : DBState) (id : Nat) : Option Service :=
  s.services.find? (fun sv => sv.id == id)

/-- `SELECT ... FROM application_documents WHERE id = ?` (first matching row). -/
def DBState.findDocument (s : DBState) (id : Nat) : Option ApplicationDocument :=
  s.documents.find? (fun d => d.id == id)

/-- `uploadedDocuments.map(doc => doc.document_type)` for the rows with
`application_id = applicationId` (`submit_application.ts`, lines 31-37). -/
def uploadedDocumentTypes (s : DBState) (applicationId : Nat) : List String :=
  (s.documents.filter (fun d => d.application_id == applicationId)).map
    (fun d => d.document_type)

/-- `requiredDocuments.filter(reqDoc => !uploadedDocumentTypes.includes(reqDoc))`
(`submit_application.ts`, lines 38-40): the requirement-validator computation. -/
def missingDocuments (requiredDocuments uploadedTypes : List String) : List String :=
  requiredDocuments.filter (fun reqDoc => !(uploadedTypes.contains reqDoc))

/-- The row update performed by `submitApplication`'s final
`db.update(...).set({status: 'SUBMITTED', submitted_at: new Date(), updated_at: new Date()})`. -/
def submittedStamp (now : Nat) (a : Application) : Application :=
  { a with status := .SUBMITTED, submitted_at := some now, updated_at := now }

/-- The read-and-validate phase of `submitApplication`
(`submit_application.ts`, lines 8-44): everything before the final
`db.update`.  Returns `some r` when the handler returns/throws early with
outcome `r` (`.ok none` models the `return null` on a not-found join,
`.error msg` a thrown `Error(msg)`), and `none` when validation passes and
the handler proceeds to the write. -/
def submitEarly (applicationId : Nat) (s : DBState) :
    Option (Except String (Option Application)) :=
  match s.findApp applicationId with
  | none => some (.ok none)
  | some applicationData =>
    match s.findService applicationData.service_id with
    | none => some (.ok none)
    | some serviceData =>
      if applicationData.status ≠ .DRAFT then
        some (.error "Application can only be submitted from DRAFT status")
      else
        let missing := missingDocuments serviceData.required_documents
          (uploadedDocumentTypes s applicationId)
        if missing.length > 0 then
          some (.error ("Missing required documents: " ++
            String.intercalate ", " missing))
        else
          none

/-- The final write of `submitApplication` (`submit_application.ts`,
lines 46-57): `db.update(applicationsTable).set({...}).where(eq(applicationsTable.id, applicationId)).returning()`.
The `WHERE` clause matches on the id only — there is no condition on the
row's current status. -/
def submitWrite (now applicationId : Nat) (s : DBState) :
    Except String (Option Application) × DBState :=
  let rows := s.applications.map
    (fun a => if a.id == applicationId then submittedStamp now a else a)
  (.ok ((s.findApp applicationId).map (submittedStamp now)),
    { s with applications := rows })

/-- `submitApplication` (`submit_application.ts`): validate, then write.
Result pairs the handler's outcome with the post-call store. -/
def submitApplication (now applicationId : Nat) (s : DBState) :
    Except String (Option Application) × DBState :=
  match submitEarly applicationId s with
  | some r => (r, s)
  | none => submitWrite now applicationId s

/-- The race the spec's concurrency section describes: two `submitApplication`
calls on one id that both run their read-and-validate phase against the same
snapshot `s` before either write executes; the writes then run one after the
other.  Returns (first caller's outcome, second caller's outcome, final store). -/
def doubleSubmit (now applicationId : Nat) (s : DBState) :
    Except String (Option Application) × Except String (Option Application) × DBState :=
  match submitEarly applicationId s with
  | some r => (r, r, s)
  | none =>
    let w1 := submitWrite now applicationId s
    let w2 := submitWrite now applicationId w1.2
    (w1.1, w2.1, w2.2)

/-- `UpdateApplicationInput` from `schema.ts` (the zod schema):
every field but `id` is optional, and the nullable ones distinguish
"absent" (`none`) from "explicit null" (`some none`). -/
structure UpdateApplicationInput where
  id : Nat
  status : Option ApplicationStatus
  application_data : Option String
  notes : Option (Option String)
  staff_notes : Option (Option String)
  reviewed_by : Option (Option Int)
deriving DecidableEq, Repr

/-- The `updateData` object `updateApplication` builds
(`update_application.ts`, lines 9-49): a partial row patch.  A `none` field
is absent from the object (the column is left untouched by the SQL `SET`). -/
structure UpdateData where
  updated_at : Nat
  status : Option ApplicationStatus := none
  submitted_at : Option Nat := none
  reviewed_at : Option Nat := none
  reviewed_by : Option (Option Int) := none
  application_data : Option String := none
  notes : Option (Option String) := none
  staff_notes : Option (Option String) := none
deriving DecidableEq, Repr

/-- JavaScript truthiness of `input.reviewed_by` (a `number | null | undefined`):
truthy exactly when it is a number other than `0`. -/
def jsTruthyReviewedBy : Option (Option Int) → Bool
  | some (some n) => n != 0
  | _ => false

/-- JavaScript truthiness of the guard
`input.status && input.status !== 'DRAFT' && input.status !== 'SUBMITTED'`
(`update_application.ts`, line 45): `input.status` is truthy iff supplied
(every enum string is non-empty). -/
def statusReviewCond : Option ApplicationStatus → Bool
  | some st => st != .DRAFT && st != .SUBMITTED
  | none => false

/-- Builds `updateData` exactly as `update_application.ts` lines 9-49 do. -/
def buildUpdateData (now : Nat) (input : UpdateApplicationInput) : UpdateData :=
  let d : UpdateData := { updated_at := now }
  let d :=
    match input.status with
    | none => d
    | some st =>
      let d := { d with status := some st }
      let d := if st == .SUBMITTED then { d with submitted_at := some now } else d
      if st != .DRAFT && st != .SUBMITTED && jsTruthyReviewedBy input.reviewed_by then
        { d with reviewed_at := some now, reviewed_by := input.reviewed_by }
      else d
  let d :=
    match input.application_data with
    | none => d
    | some v => { d with application_data := some v }
  let d :=
    match input.notes with
    | none => d
    | some v => { d with notes := some v }
  let d :=
    match input.staff_notes with
    | none => d
    | some v => { d with staff_notes := some v }
  match input.reviewed_by with
  | none => d
  | some v =>
    let d := { d with reviewed_by := some v }
    if statusReviewCond input.status then { d with reviewed_at := some now } else d

/-- Applies an `updateData` patch to one row: the semantics of
`db.update(applicationsTable).set(updateData)` on a matching row — columns
absent from the patch keep their stored value. -/
def applyUpdateData (d : UpdateData) (a : Application) : Application :=
  { a with
    updated_at := d.updated_at
    status := d.status.getD a.status
    submitted_at := match d.submitted_at with | none => a.submitted_at | some t => some t
    reviewed_at := match d.reviewed_at with | none => a.reviewed_at | some t => some t
    reviewed_by := match d.reviewed_by with | none => a.reviewed_by | some v => v
    application_data := d.application_data.getD a.application_data
    notes := match d.notes with | none => a.notes | some v => v
    staff_notes := match d.staff_notes with | none => a.staff_notes | some v => v }

/-- `updateApplication` (`update_application.ts`): build the patch, apply it
to the rows whose id matches, return the updated row or `null`
(`result.length > 0 ? result[0] : null`). -/
def updateApplication (now : Nat) (input : UpdateApplicationInput) (s : DBState) :
    Option Application × DBState :=
  let d := buildUpdateData now input
  match s.findApp input.id with
  | none => (none, s)
  | some app =>
    let rows := s.applications.map
      (fun a => if a.id == input.id then applyUpdateData d a else a)
    (some (applyUpdateData d app), { s with applications := rows })

/-- `UploadDocumentInput` from `schema.ts` (the zod schema).  The
`document_type` is one of the enum tags, compared against the service's
`required_documents` string list, so it is a `String` here. -/
structure UploadDocumentInput where
  application_id : Nat
  document_type : String
  file_name : String
  file_path : String
  file_size : Nat
  mime_type : String
deriving DecidableEq, Repr

/-- `uploadDocument` (`upload_document.ts`): resolve the application joined
with its service, reject a `document_type` outside the service's
`required_documents`, otherwise insert a fresh row (`newId` models the
serial id the insert assigns) with `uploaded_at` defaulted to now. -/
def uploadDocument (now newId : Nat) (input : UploadDocumentInput) (s : DBState) :
    Except String ApplicationDocument × DBState :=
  match s.findApp input.application_id with
  | none =>
    (.error ("Application with id " ++ toString input.application_id ++ " not found"), s)
  | some application =>
    match s.findService application.service_id with
    | none =>
      (.error ("Application with id " ++ toString input.application_id ++ " not found"), s)
    | some service =>
      if !(service.required_documents.contains input.document_type) then
        (.error ("Document type \x27" ++ input.document_type ++
          "\x27 is not required for this service"), s)
      else
        let doc : ApplicationDocument :=
          { id := newId
            application_id := input.application_id
            document_type := input.document_type
            file_name := input.file_name
            file_path := input.file_path
            file_size := input.file_size
            mime_type := input.mime_type
            uploaded_at := now }
        (.ok doc, { s with documents := s.documents ++ [doc] })

/-- `deleteDocument` (`src/unnamed/part_008`): look up the document joined
with its application's status; return `false` when absent or when the
application is not in DRAFT; otherwise delete the metadata row, then
best-effort `unlink` the backing file (removing the path when it exists,
silently doing nothing when it does not), and return `true`. -/
def deleteDocument (documentId : Nat) (s : DBState) : Bool × DBState :=
  match s.findDocument documentId with
  | none => (false, s)
  | some document =>
    match s.findApp document.application_id with
    | none => (false, s)
    | some app =>
      if app.status ≠ .DRAFT then
        (false, s)
      else
        let rowCount := (s.documents.filter (fun d => d.id == documentId)).length
        let s2 := { s with documents := s.documents.filter (fun d => d.id != documentId) }
        if rowCount == 0 then
          (false, s2)
        else
          let s3 := { s2 with files := s2.files.filter (fun p => p != document.file_path) }
          (true, s3)

/-! ### Concrete fixtures used by witnesses and counterexamples -/

/-- A DRAFT application for service 2. -/
def exApp : Application :=
  { id := 1, service_id := 2, applicant_id := 3, status := .DRAFT,
    application_data := "data", notes := none, staff_notes := none,
    submitted_at := none, reviewed_at := none, reviewed_by := none,
    created_at := 0, updated_at := 0 }

/-- A service requiring an SKCK and a health certificate. -/
def exService : Service :=
  { id := 2, name := "Rekomendasi Adopsi", description := none,
    required_documents := ["SKCK", "HEALTH_CERTIFICATE"],
    is_active := true, created_at := 0 }

/-- An uploaded SKCK for application 1. -/
def exDoc : ApplicationDocument :=
  { id := 10, application_id := 1, document_type := "SKCK",
    file_name := "skck.pdf", file_path := "/files/skck.pdf",
    file_size := 100, mime_type := "application/pdf", uploaded_at := 5 }

/-- An uploaded health certificate for application 1. -/
def exDoc2 : ApplicationDocument :=
  { id := 11, application_id := 1, document_type := "HEALTH_CERTIFICATE",
    file_name := "health.pdf", file_path := "/files/health.pdf",
    file_size := 120, mime_type := "application/pdf", uploaded_at := 6 }

/-- Store where application 1 has uploaded only the SKCK. -/
def exState : DBState :=
  { applications := [exApp], services := [exService],
    documents := [exDoc], files := ["/files/skck.pdf"] }

/-- Store where application 1 has uploaded both required documents. -/
def exStateFull : DBState :=
  { exState with documents := [exDoc, exDoc2] }

/-- Application 1 after it has already been submitted at time 90. -/
def exAppSubmitted : Application :=
  { exApp with status := .SUBMITTED, submitted_at := some 90 }

/-- Store where application 1 is already SUBMITTED. -/
def exStateSubmitted : DBState :=
  { exStateFull with applications := [exAppSubmitted] }

/-- An update request that moves application 1 to UNDER_REVIEW while
explicitly supplying `reviewed_by: null`. -/
def exReviewNullInput : UpdateApplicationInput :=
  { id := 1, status := some .UNDER_REVIEW, application_data := none,
    notes := none, staff_notes := none, reviewed_by := some none }

/-- The row `updateApplication` produces for `exReviewNullInput` at time 50:
reviewed_at is stamped while reviewed_by stays null. -/
def exAppNullReviewed : Application :=
  { exApp with status := .UNDER_REVIEW, reviewed_at := some 50, updated_at := 50 }

/-- An update request moving application 1 to UNDER_REVIEW with reviewer 7. -/
def exReviewerInput : UpdateApplicationInput :=
  { id := 1, status := some .UNDER_REVIEW, application_data := none,
    notes := none, staff_notes := none, reviewed_by := some (some 7) }

/-- An update request setting application 1 straight to APPROVED. -/
def exApproveInput : UpdateApplicationInput :=
  { id := 1, status := some .APPROVED, application_data := none,
    notes := none, staff_notes := none, reviewed_by := none }

/-- An update request carrying nothing but the id. -/
def exIdOnlyInput : UpdateApplicationInput :=
  { id := 1, status := none, application_data := none,
    notes := none, staff_notes := none, reviewed_by := none }

/-- An upload request with a type the fixture service does not require. -/
def exUploadBad : UploadDocumentInput :=
  { application_id := 1, document_type := "FINANCIAL_STATEMENT",
    file_name := "fin.pdf", file_path := "/files/fin.pdf",
    file_size := 10, mime_type := "application/pdf" }

/-! ### Helper lemmas -/

theorem contains_iff_mem (l : List String) (a : String) : l.contains a = true ↔ a ∈ l := by
  simp [List.contains]

/-- `find?`-by-id commutes with an id-preserving per-row update. -/
theorem find?_map_update (l : List Application) (id : Nat) (a : Application)
    (g : Application → Application) (hg : ∀ x, (g x).id = x.id)
    (h : l.find? (fun x => x.id == id) = some a) :
    (l.map (fun x => if x.id == id then g x else x)).find? (fun x => x.id == id) =
      some (g a) := by
  induction l with
  | nil => simp at h
  | cons x xs ih =>
    cases hx : (x.id == id) with
    | true =>
      simp only [List.find?_cons, hx] at h
      injection h with h
      subst h
      simp only [List.map_cons]
      rw [if_pos hx, List.find?_cons, hg x, hx]
    | false =>
      simp only [List.find?_cons, hx] at h
      simp only [List.map_cons, List.find?_cons, hx, Bool.false_eq_true, if_false]
      exact ih h

/-- If the read-and-validate phase of `submitApplication` passes, the
application exists and is in DRAFT. -/
theorem submitEarly_none_findApp {applicationId : Nat} {s : DBState}
    (h : submitEarly applicationId s = none) :
    ∃ app, s.findApp applicationId = some app ∧ app.status = .DRAFT := by
  unfold submitEarly at h
  cases happ : s.findApp applicationId with
  | none => simp [happ] at h
  | some app =>
    refine ⟨app, rfl, ?_⟩
    simp only [happ] at h
    cases hsvc : s.findService app.service_id with
    | none => simp [hsvc] at h
    | some svc =>
      simp only [hsvc] at h
      by_cases hst : app.status = ApplicationStatus.DRAFT
      · exact hst
      · simp [hst] at h

/-! ### Claim C2 -/

/-- Claim C2, counterexample: the missing-documents computation does not
deduplicate repeats within the required list.  With the required list
`["SKCK", "SKCK"]` and nothing uploaded, the code produces
`["SKCK", "SKCK"]`, not the deduplicated `["SKCK"]` the claim requires. -/
theorem missingDocuments_dedup_counterexample :
    missingDocuments ["SKCK", "SKCK"] [] = ["SKCK", "SKCK"] ∧
    missingDocuments ["SKCK", "SKCK"] [] ≠ ["SKCK"] := by
  constructor <;> decide

/-- Claim C2, amended: for every required list `R` and uploaded-type list
`U`, the missing-documents computation returns exactly the elements of `R`
absent from `U`, preserving `R`'s original order and retaining repeats
within `R` (it does not deduplicate them); for `R` empty the result is the
empty list for every `U`. -/
theorem missingDocuments_spec (R U : List String) :
    (∀ t, t ∈ missingDocuments R U ↔ t ∈ R ∧ t ∉ U) ∧
    (missingDocuments R U).Sublist R ∧
    (∀ t, t ∈ U → (missingDocuments R U).count t = 0) ∧
    (∀ t, t ∉ U → (missingDocuments R U).count t = R.count t) ∧
    (R = [] → missingDocuments R U = []) := by
  refine ⟨?_, ?_, ?_, ?_, ?_⟩
  · intro t
    unfold missingDocuments
    rw [List.mem_filter]
    simp [contains_iff_mem]
  · exact List.filter_sublist R
  · intro t ht
    apply List.count_eq_zero.mpr
    unfold missingDocuments
    rw [List.mem_filter]
    simp [contains_iff_mem]
    intro _
    exact ht
  · intro t ht
    unfold missingDocuments
    apply List.count_filter
    simp [contains_iff_mem, ht]
  · intro h
    subst h
    rfl

/-- Claim C2, witness for the amended theorem: instantiated at the required
list `["SKCK", "HEALTH_CERTIFICATE"]` with only `"SKCK"` uploaded. -/
theorem missingDocuments_spec_witness :
    "HEALTH_CERTIFICATE" ∈ missingDocuments ["SKCK", "HEALTH_CERTIFICATE"] ["SKCK"] :=
  ((missingDocuments_spec ["SKCK", "HEALTH_CERTIFICATE"] ["SKCK"]).1
    "HEALTH_CERTIFICATE").mpr ⟨by decide, by decide⟩

/-! ### Claim C1 -/

/-- Claim C1: for an application that exists (joined with its service),
`submitApplication` (1) fails with the InvalidTransition message naming
DRAFT as the only legal source status whenever the current status is not
DRAFT, leaving the store unchanged; (2) when the status is DRAFT and every
required document type of the service is covered by the uploaded document
types, it sets status=SUBMITTED, submitted_at=now, updated_at=now, persists
the row and returns it; (3) when the status is DRAFT and some required type
is uncovered, it fails with a MissingDocuments message enumerating the
missing tags comma-separated in required-list order, leaving the store
unchanged. -/
theorem submitApplication_lifecycle (now applicationId : Nat) (s : DBState)
    (app : Application) (svc : Service)
    (happ : s.findApp applicationId = some app)
    (hsvc : s.findService app.service_id = some svc) :
    (app.status ≠ .DRAFT →
      submitApplication now applicationId s =
        (.error "Application can only be submitted from DRAFT status", s)) ∧
    (app.status = .DRAFT →
      (∀ r ∈ svc.required_documents, r ∈ uploadedDocumentTypes s applicationId) →
      (submitApplication now applicationId s).1 =
        .ok (some (submittedStamp now app)) ∧
      (submitApplication now applicationId s).2.findApp applicationId =
        some (submittedStamp now app)) ∧
    (app.status = .DRAFT →
      (∃ r ∈ svc.required_documents, r ∉ uploadedDocumentTypes s applicationId) →
      submitApplication now applicationId s =
        (.error ("Missing required documents: " ++ String.intercalate ", "
          (missingDocuments svc.required_documents
            (uploadedDocumentTypes s applicationId))), s)) := by
  refine ⟨?_, ?_, ?_⟩
  · intro hst
    have hearly : submitEarly applicationId s =
        some (.error "Application can only be submitted from DRAFT status") := by
      unfold submitEarly
      simp [happ, hsvc, hst]
    unfold submitApplication
    rw [hearly]
  · intro hst hcov
    have hmiss : missingDocuments svc.required_documents
        (uploadedDocumentTypes s applicationId) = [] := by
      unfold missingDocuments
      apply List.filter_eq_nil_iff.mpr
      intro r hr
      simp [contains_iff_mem, hcov r hr]
    have hearly : submitEarly applicationId s = none := by
      unfold submitEarly
      simp [happ, hsvc, hst, hmiss]
    constructor
    · unfold submitApplication
      rw [hearly]
      unfold submitWrite
      simp [happ]
    · unfold submitApplication
      rw [hearly]
      unfold submitWrite DBState.findApp
      unfold DBState.findApp at happ
      exact find?_map_update s.applications applicationId app
        (submittedStamp now) (fun x => rfl) happ
  · intro hst hexm
    have hmiss : missingDocuments svc.required_documents
        (uploadedDocumentTypes s applicationId) ≠ [] := by
      obtain ⟨r, hr, hru⟩ := hexm
      intro hnil
      have : r ∈ missingDocuments svc.required_documents
          (uploadedDocumentTypes s applicationId) := by
        unfold missingDocuments
        rw [List.mem_filter]
        exact ⟨hr, by simp [contains_iff_mem, hru]⟩
      rw [hnil] at this
      exact absurd this (List.not_mem_nil r)
    have hearly : submitEarly applicationId s =
        some (.error ("Missing required documents: " ++ String.intercalate ", "
          (missingDocuments svc.required_documents
            (uploadedDocumentTypes s applicationId)))) := by
      unfold submitEarly
      have hlen : 0 < (missingDocuments svc.required_documents
          (uploadedDocumentTypes s applicationId)).length :=
        List.length_pos.mpr hmiss
      simp [happ, hsvc, hst, hlen]
    unfold submitApplication
    rw [hearly]

/-- Claim C1, witness: the fixture state where only the SKCK is uploaded,
so submission fails naming the missing `HEALTH_CERTIFICATE`. -/
theorem submitApplication_lifecycle_witness :
    submitApplication 100 1 exState =
      (.error "Missing required documents: HEALTH_CERTIFICATE", exState) :=
  (submitApplication_lifecycle 100 1 exState exApp exService rfl rfl).2.2 rfl
    ⟨"HEALTH_CERTIFICATE", by decide, by decide⟩

/-! ### Claim C3 -/

/-- Claim C3: whenever `submitApplication` fails — it throws (status not
DRAFT or missing documents) or reports the application absent — the store
after the call is identical to the store before it: no write happens unless
validation fully passes. -/
theorem submitApplication_noop_on_failure (now applicationId : Nat) (s : DBState)
    (h : (∃ e, (submitApplication now applicationId s).1 = .error e) ∨
         (submitApplication now applicationId s).1 = .ok none) :
    (submitApplication now applicationId s).2 = s := by
  unfold submitApplication at h ⊢
  cases hearly : submitEarly applicationId s with
  | some r => rfl
  | none =>
    exfalso
    obtain ⟨app, happ, -⟩ := submitEarly_none_findApp hearly
    rw [hearly] at h
    unfold submitWrite at h
    rw [happ] at h
    cases h with
    | inl he =>
      obtain ⟨e, he⟩ := he
      simp at he
    | inr ho => simp at ho

/-- Claim C3, witness: the failed submit over the incomplete fixture store
leaves that store untouched. -/
theorem submitApplication_noop_on_failure_witness :
    (submitApplication 100 1 exState).2 = exState :=
  submitApplication_noop_on_failure 100 1 exState
    (Or.inl ⟨"Missing required documents: HEALTH_CERTIFICATE", rfl⟩)

/-! ### Claim C5 -/

/-- Claim C5: when no stored application has the requested id,
`submitApplication` reports the not-found outcome (the handler's
`return null`, `.ok none` here) and never a successful `Application`
result; the store is unchanged. -/
theorem submitApplication_notFound (now applicationId : Nat) (s : DBState)
    (h : s.findApp applicationId = none) :
    submitApplication now applicationId s = (.ok none, s) ∧
    ∀ a : Application, (submitApplication now applicationId s).1 ≠ .ok (some a) := by
  have hearly : submitEarly applicationId s = some (.ok none) := by
    unfold submitEarly
    rw [h]
  constructor
  · unfold submitApplication
    rw [hearly]
  · intro a hcontra
    unfold submitApplication at hcontra
    rw [hearly] at hcontra
    simp at hcontra

/-- Claim C5, witness: id 7 references no application in the fixture store. -/
theorem submitApplication_notFound_witness :
    submitApplication 100 7 exState = (.ok none, exState) :=
  (submitApplication_notFound 100 7 exState rfl).1

/-! ### Claim C4 -/

/-- Claim C4, counterexample: the final write is not conditioned on the
status still being DRAFT.  In the race the spec describes — both calls
validate against the same DRAFT snapshot, then write — BOTH callers get a
SUBMITTED success and neither observes the InvalidTransition error; and the
final write applied to a store where application 1 is already SUBMITTED
still updates the row and reports success instead of affecting zero rows. -/
theorem submit_conditional_write_counterexample :
    (doubleSubmit 100 1 exStateFull).1 = .ok (some (submittedStamp 100 exApp)) ∧
    (doubleSubmit 100 1 exStateFull).2.1 = .ok (some (submittedStamp 100 exApp)) ∧
    (doubleSubmit 100 1 exStateFull).2.1 ≠
      .error "Application can only be submitted from DRAFT status" ∧
    (submitWrite 100 1 exStateSubmitted).1 =
      .ok (some (submittedStamp 100 exAppSubmitted)) := by
  refine ⟨rfl, rfl, ?_, rfl⟩
  have heval : (doubleSubmit 100 1 exStateFull).2.1 =
      .ok (some (submittedStamp 100 exApp)) := rfl
  intro h
  rw [heval] at h
  exact Except.noConfusion h

/-- Claim C4, amended: `submitApplication`'s final write is conditioned only
on the application id — for an existing application in ANY current status
the write updates the row and returns it as SUBMITTED (it never fails with
InvalidTransition at write time); consequently, when two concurrent submit
calls both pass the read-and-validate phase on one DRAFT application, both
return a SUBMITTED result — not exactly one. -/
theorem submitWrite_unconditional (now applicationId : Nat) (s : DBState)
    (app : Application) (happ : s.findApp applicationId = some app) :
    (submitWrite now applicationId s).1 = .ok (some (submittedStamp now app)) ∧
    (submitEarly applicationId s = none →
      (doubleSubmit now applicationId s).1 = .ok (some (submittedStamp now app)) ∧
      (doubleSubmit now applicationId s).2.1 = .ok (some (submittedStamp now app))) := by
  have hw1 : (submitWrite now applicationId s).1 = .ok (some (submittedStamp now app)) := by
    unfold submitWrite
    simp [happ]
  refine ⟨hw1, fun hearly => ?_⟩
  have hfind2 : (submitWrite now applicationId s).2.findApp applicationId =
      some (submittedStamp now app) := by
    unfold submitWrite DBState.findApp
    unfold DBState.findApp at happ
    exact find?_map_update s.applications applicationId app
      (submittedStamp now) (fun x => rfl) happ
  have hw2 : (submitWrite now applicationId (submitWrite now applicationId s).2).1 =
      .ok (some (submittedStamp now app)) := by
    have hshape : (submitWrite now applicationId (submitWrite now applicationId s).2).1 =
        .ok (((submitWrite now applicationId s).2.findApp applicationId).map
          (submittedStamp now)) := rfl
    rw [hshape, hfind2]
    rfl
  unfold doubleSubmit
  rw [hearly]
  exact ⟨hw1, hw2⟩

/-- Claim C4, witness for the amended theorem: both racing submits on the
complete fixture store return the SUBMITTED row. -/
theorem submitWrite_unconditional_witness :
    (doubleSubmit 100 1 exStateFull).2.1 = .ok (some (submittedStamp 100 exApp)) :=
  ((submitWrite_unconditional 100 1 exStateFull exApp rfl).2 rfl).2

/-! ### Claim C6 -/

theorem buildUpdateData_status (now : Nat) (input : UpdateApplicationInput) :
    (buildUpdateData now input).status = input.status := by
  unfold buildUpdateData
  cases hst : input.status <;> cases hrb : input.reviewed_by <;>
    cases input.application_data <;> cases input.notes <;> cases input.staff_notes <;>
    simp [statusReviewCond, jsTruthyReviewedBy] <;> split_ifs <;> simp_all

theorem buildUpdateData_reviewed_by (now : Nat) (input : UpdateApplicationInput) :
    (buildUpdateData now input).reviewed_by = input.reviewed_by := by
  unfold buildUpdateData
  cases hst : input.status <;> cases hrb : input.reviewed_by <;>
    cases input.application_data <;> cases input.notes <;> cases input.staff_notes <;>
    simp [statusReviewCond, jsTruthyReviewedBy] <;> split_ifs <;> simp_all

theorem buildUpdateData_submitted_at (now : Nat) (input : UpdateApplicationInput) :
    (buildUpdateData now input).submitted_at =
      if input.status = some .SUBMITTED then some now else none := by
  unfold buildUpdateData
  cases hst : input.status <;> cases hrb : input.reviewed_by <;>
    cases input.application_data <;> cases input.notes <;> cases input.staff_notes <;>
    simp [statusReviewCond, jsTruthyReviewedBy] <;> split_ifs <;> simp_all

theorem buildUpdateData_reviewed_at (now : Nat) (input : UpdateApplicationInput) :
    (buildUpdateData now input).reviewed_at =
      if statusReviewCond input.status = true ∧ input.reviewed_by ≠ none
      then some now else none := by
  unfold buildUpdateData
  cases hst : input.status <;> cases hrb : input.reviewed_by <;>
    cases input.application_data <;> cases input.notes <;> cases input.staff_notes <;>
    simp [statusReviewCond, jsTruthyReviewedBy] <;> split_ifs <;> simp_all

/-- Claim C6, counterexample: the request `{id: 1, status: UNDER_REVIEW,
reviewed_by: null}` stamps `reviewed_at = now` yet persists a null
`reviewed_by` — `reviewed_at` is set without a non-null `reviewed_by`,
contradicting both halves of the claim. -/
theorem reviewed_fields_counterexample :
    (updateApplication 50 exReviewNullInput exState).1 = some exAppNullReviewed ∧
    exAppNullReviewed.reviewed_at = some 50 ∧
    exAppNullReviewed.reviewed_by = none := ⟨rfl, rfl, rfl⟩

/-- Claim C6, amended: `updateApplication` stamps `reviewed_at = now`
exactly when the request sets `status` to a value outside
{DRAFT, SUBMITTED} and supplies `reviewed_by` — of any value, including an
explicit null — in the same request; the supplied `reviewed_by` value is
persisted with it (so a null `reviewed_by` can be persisted together with a
freshly stamped `reviewed_at`). -/
theorem reviewed_fields_spec (now : Nat) (input : UpdateApplicationInput)
    (a : Application) :
    ((buildUpdateData now input).reviewed_at = some now ↔
      statusReviewCond input.status = true ∧ input.reviewed_by ≠ none) ∧
    (buildUpdateData now input).reviewed_by = input.reviewed_by ∧
    (∀ v, input.reviewed_by = some v → statusReviewCond input.status = true →
      (applyUpdateData (buildUpdateData now input) a).reviewed_at = some now ∧
      (applyUpdateData (buildUpdateData now input) a).reviewed_by = v) := by
  refine ⟨?_, buildUpdateData_reviewed_by now input, ?_⟩
  · rw [buildUpdateData_reviewed_at]
    by_cases h : statusReviewCond input.status = true ∧ input.reviewed_by ≠ none
    · simp [h]
    · simp only [if_neg h]
      constructor
      · intro hcontra
        exact Option.noConfusion hcontra
      · intro hcontra
        exact absurd hcontra h
  · intro v hv hcond
    have hra := buildUpdateData_reviewed_at now input
    rw [if_pos ⟨hcond, by simp [hv]⟩] at hra
    have hrb := buildUpdateData_reviewed_by now input
    constructor
    · simp [applyUpdateData, hra]
    · simp [applyUpdateData, hrb, hv]

/-- Claim C6, witness for the amended theorem: reviewer 7 moving the
application to UNDER_REVIEW gets both review fields stamped. -/
theorem reviewed_fields_spec_witness :
    (applyUpdateData (buildUpdateData 50 exReviewerInput) exApp).reviewed_at = some 50 ∧
    (applyUpdateData (buildUpdateData 50 exReviewerInput) exApp).reviewed_by = some 7 :=
  (reviewed_fields_spec 50 exReviewerInput exApp).2.2 (some 7) rfl rfl

/-! ### Claim C7 -/

/-- Claim C7: for an existing application in any current status and any
target status, `updateApplication` succeeds and applies the target status —
no transition table and no document-completeness check is consulted; it
stamps `submitted_at = now` exactly when the target is SUBMITTED and leaves
the stored `submitted_at` untouched (never cleared) for every other target;
the updated row is persisted. -/
theorem updateApplication_free_status (now : Nat) (input : UpdateApplicationInput)
    (s : DBState) (app : Application) (st : ApplicationStatus)
    (happ : s.findApp input.id = some app) (hst : input.status = some st) :
    (updateApplication now input s).1 =
      some (applyUpdateData (buildUpdateData now input) app) ∧
    (applyUpdateData (buildUpdateData now input) app).status = st ∧
    (applyUpdateData (buildUpdateData now input) app).submitted_at =
      (if st = .SUBMITTED then some now else app.submitted_at) ∧
    (updateApplication now input s).2.findApp input.id =
      some (applyUpdateData (buildUpdateData now input) app) := by
  refine ⟨?_, ?_, ?_, ?_⟩
  · unfold updateApplication
    rw [happ]
  · simp [applyUpdateData, buildUpdateData_status, hst]
  · have hsub := buildUpdateData_submitted_at now input
    rw [hst] at hsub
    by_cases hs : st = ApplicationStatus.SUBMITTED
    · rw [if_pos (by rw [hs])] at hsub
      simp [applyUpdateData, hsub, hs]
    · rw [if_neg (by simp [hs])] at hsub
      simp [applyUpdateData, hsub, hs]
  · unfold updateApplication
    rw [happ]
    show (DBState.findApp _ _) = _
    unfold DBState.findApp
    unfold DBState.findApp at happ
    exact find?_map_update s.applications input.id app
      (applyUpdateData (buildUpdateData now input)) (fun x => rfl) happ

/-- Claim C7, witness: the generic update moves a DRAFT application
directly to APPROVED with no gate. -/
theorem updateApplication_free_status_witness :
    (applyUpdateData (buildUpdateData 60 exApproveInput) exApp).status = .APPROVED :=
  (updateApplication_free_status 60 exApproveInput exState exApp .APPROVED rfl rfl).2.1

/-! ### Claim C10 -/

/-- Claim C10: an update request that supplies no updatable field besides
the id still bumps `updated_at = now`, leaves every other stored field of
the matched application unchanged, and persists that row. -/
theorem updateApplication_touch_only (now : Nat) (input : UpdateApplicationInput)
    (s : DBState) (app : Application)
    (happ : s.findApp input.id = some app)
    (hst : input.status = none) (had : input.application_data = none)
    (hn : input.notes = none) (hsn : input.staff_notes = none)
    (hrb : input.reviewed_by = none) :
    (updateApplication now input s).1 = some { app with updated_at := now } ∧
    (updateApplication now input s).2.findApp input.id =
      some { app with updated_at := now } := by
  have hd : buildUpdateData now input = { updated_at := now } := by
    unfold buildUpdateData
    rw [hst, had, hn, hsn, hrb]
  constructor
  · unfold updateApplication
    rw [happ, hd]
    rfl
  · unfold updateApplication
    rw [happ, hd]
    show (DBState.findApp _ _) = _
    unfold DBState.findApp
    unfold DBState.findApp at happ
    exact find?_map_update s.applications input.id app
      (applyUpdateData { updated_at := now }) (fun x => rfl) happ

/-- Claim C10, witness: the id-only request at time 70 returns the fixture
application with only `updated_at` changed. -/
theorem updateApplication_touch_only_witness :
    (updateApplication 70 exIdOnlyInput exState).1 =
      some { exApp with updated_at := 70 } :=
  (updateApplication_touch_only 70 exIdOnlyInput exState exApp rfl rfl rfl rfl rfl rfl).1

/-! ### Claim C8 -/

/-- Claim C8: for an existing application, `uploadDocument` rejects a
`document_type` outside the owning service's required tags with the
UnsupportedDocumentType error and leaves the store unchanged (no row
inserted); for a `document_type` among the required tags it always inserts
a fresh row — with no condition on how many documents of that type already
exist and no condition on the application's status. -/
theorem uploadDocument_type_gate (now newId : Nat) (input : UploadDocumentInput)
    (s : DBState) (app : Application) (svc : Service)
    (happ : s.findApp input.application_id = some app)
    (hsvc : s.findService app.service_id = some svc) :
    (input.document_type ∉ svc.required_documents →
      uploadDocument now newId input s =
        (.error ("Document type \x27" ++ input.document_type ++
          "\x27 is not required for this service"), s)) ∧
    (input.document_type ∈ svc.required_documents →
      ∃ doc : ApplicationDocument,
        (uploadDocument now newId input s).1 = .ok doc ∧
        doc.document_type = input.document_type ∧
        doc.application_id = input.application_id ∧
        doc.uploaded_at = now ∧
        (uploadDocument now newId input s).2 =
          { s with documents := s.documents ++ [doc] }) := by
  constructor
  · intro hmem
    unfold uploadDocument
    simp only [happ, hsvc]
    rw [if_pos (by simp [contains_iff_mem, hmem])]
  · intro hmem
    unfold uploadDocument
    simp only [happ, hsvc]
    rw [if_neg (by simp [contains_iff_mem, hmem])]
    exact ⟨_, rfl, rfl, rfl, rfl, rfl⟩

/-- Claim C8, witness: uploading a FINANCIAL_STATEMENT against the fixture
service (which requires only SKCK and HEALTH_CERTIFICATE) is rejected and
inserts nothing. -/
theorem uploadDocument_type_gate_witness :
    uploadDocument 80 12 exUploadBad exState =
      (.error "Document type \x27FINANCIAL_STATEMENT\x27 is not required for this service",
        exState) :=
  (uploadDocument_type_gate 80 12 exUploadBad exState exApp exService rfl rfl).1
    (by decide)

/-! ### Claim C9 -/

/-- Claim C9: `deleteDocument` returns `false` without an error — leaving
the store and the filesystem untouched — both when the document does not
exist and when the owning application's status is anything other than
DRAFT; only when the owning application is in DRAFT does it remove the
metadata row and return `true`, removing the backing file when it exists
and silently swallowing the failure when it does not, with no effect on the
`true` result or the metadata deletion. -/
theorem deleteDocument_guard (documentId : Nat) (s : DBState) :
    (s.findDocument documentId = none → deleteDocument documentId s = (false, s)) ∧
    (∀ doc app, s.findDocument documentId = some doc →
      s.findApp doc.application_id = some app → app.status ≠ .DRAFT →
      deleteDocument documentId s = (false, s)) ∧
    (∀ doc app, s.findDocument documentId = some doc →
      s.findApp doc.application_id = some app → app.status = .DRAFT →
      deleteDocument documentId s =
        (true,
          { s with
              documents := s.documents.filter (fun d => d.id != documentId),
              files := s.files.filter (fun p => p != doc.file_path) })) := by
  refine ⟨?_, ?_, ?_⟩
  · intro hdoc
    unfold deleteDocument
    rw [hdoc]
  · intro doc app hdoc happ hstat
    unfold deleteDocument
    simp only [hdoc, happ]
    rw [if_pos hstat]
  · intro doc app hdoc happ hstat
    have hdoc' : s.documents.find? (fun d => d.id == documentId) = some doc := hdoc
    have hdmem : doc ∈ s.documents := List.mem_of_find?_eq_some hdoc'
    have hdid : (doc.id == documentId) = true :=
      @List.find?_some ApplicationDocument (fun d => d.id == documentId) doc
        s.documents hdoc'
    have hne : s.documents.filter (fun d => d.id == documentId) ≠ [] := by
      intro hnil
      have hmem : doc ∈ s.documents.filter (fun d => d.id == documentId) :=
        List.mem_filter.mpr ⟨hdmem, hdid⟩
      rw [hnil] at hmem
      exact absurd hmem (List.not_mem_nil doc)
    have hlen : ((s.documents.filter (fun d => d.id == documentId)).length == 0) = false := by
      simp only [beq_eq_false_iff_ne, ne_eq, List.length_eq_zero]
      exact hne
    unfold deleteDocument
    simp only [hdoc, happ]
    rw [if_neg (by simp [hstat])]
    simp only [hlen]
    rfl

/-- Claim C9, witness: deleting the SKCK of the DRAFT fixture application
removes the row and its backing file and returns `true`. -/
theorem deleteDocument_guard_witness :
    deleteDocument 10 exState =
      (true, { exState with documents := [], files := [] }) := by
  have h := (deleteDocument_guard 10 exState).2.2 exDoc exApp rfl rfl rfl
  rw [h]
  rfl
